import Mathlib

/-!
Verification of the toughcrowd real-time transcript engine.

Shallow embedding of:
* `src/app/src/utils/transcript.ts` (segment model & utilities),
* `src/app/src/hooks/useSpeechToText.ts` (recognition session),
* `src/app/src/hooks/useSlideTransitionTracker.ts` (slide transition tracker),
* the zustand session store (slides / current slide index slice).

JavaScript integer arithmetic is modelled on `Int` (all values involved stay
well below 2^53, so JS numbers behave as exact integers); `Math.floor(a / b)`
on integers is `Int.fdiv`, and the JS remainder operator `%` (sign of the
dividend) is `Int.tmod`.
-/

namespace ToughCrowd

/-- `TranscriptSegment` from `src/app/src/types`: one finalized utterance. -/
structure TranscriptSegment where
  text : String
  timestamp : Int
  slideNumber : Int
  deriving Repr, DecidableEq

/-! ### transcript.ts -/

/-- `formatTimestamp`'s inner `pad`: `n.toString().padStart(2, '0')`.
JS `toString` on an integer renders the sign then the digits, exactly as
Lean's `toString` on `Int`; `padStart(2, '0')` left-pads with `'0'` up to
length 2. -/
def padStart2 (n : Int) : String :=
  let s := toString n
  if s.length < 2 then "0" ++ s else s

/-- `formatTimestamp(timestamp, baseTime)` from `transcript.ts`. -/
def formatTimestamp (timestamp baseTime : Int) : String :=
  let diffMs := timestamp - baseTime
  let totalSeconds := Int.fdiv diffMs 1000
  let hours := Int.fdiv totalSeconds 3600
  let minutes := Int.fdiv (Int.tmod totalSeconds 3600) 60
  let seconds := Int.tmod totalSeconds 60
  if hours > 0 then
    padStart2 hours ++ ":" ++ padStart2 minutes ++ ":" ++ padStart2 seconds
  else
    padStart2 minutes ++ ":" ++ padStart2 seconds

/-- `calculateSpeakingDuration(segments)` from `transcript.ts`:
0 for at most one segment, else `Math.max(...timestamps) - Math.min(...timestamps)`
(the spreads over a non-empty array are left folds of `max` / `min`). -/
def calculateSpeakingDuration (segments : List TranscriptSegment) : Int :=
  match segments with
  | [] => 0
  | [_] => 0
  | s :: rest =>
    let ts := rest.map (·.timestamp)
    ts.foldl max s.timestamp - ts.foldl min s.timestamp

/-- The loop body of `mergeConsecutiveSegments`: `current` is the running
accumulator, the list is the remaining input (`segments[i..]`); pushed
segments come out in order, and the accumulator is always flushed at the
end. -/
def mergeLoop (thresholdMs : Int) : TranscriptSegment → List TranscriptSegment → List TranscriptSegment
  | current, [] => [current]
  | current, next :: rest =>
    if next.slideNumber = current.slideNumber ∧ next.timestamp - current.timestamp ≤ thresholdMs then
      mergeLoop thresholdMs { current with text := current.text ++ " " ++ next.text } rest
    else
      current :: mergeLoop thresholdMs next rest

/-- `mergeConsecutiveSegments(segments, thresholdMs)` from `transcript.ts`. -/
def mergeConsecutiveSegments (segments : List TranscriptSegment) (thresholdMs : Int) :
    List TranscriptSegment :=
  match segments with
  | [] => []
  | s :: rest => mergeLoop thresholdMs s rest

/-- Joining a list of segments' texts in order with a single separating
space (the vocabulary of the text-preservation property). -/
def joinTexts : List TranscriptSegment → String
  | [] => ""
  | [s] => s.text
  | s :: rest => s.text ++ " " ++ joinTexts rest

/-! ### Spec-side formulations (for refinement comparisons) -/

/-- Zero-padding a numeric field to two digits, on `Nat`. -/
def padNat2 (n : Nat) : String :=
  let s := toString n
  if s.length < 2 then "0" ++ s else s

/-- The spec's wording of `formatRelative`, as a function of a non-negative
elapsed time: `mm:ss` if the elapsed whole seconds span < 1 hour, else
`hh:mm:ss`, each field zero-padded to 2 digits. -/
def formatRelativeSpec (elapsedMs : Nat) : String :=
  let totalSeconds := elapsedMs / 1000
  let hours := totalSeconds / 3600
  let minutes := totalSeconds % 3600 / 60
  let seconds := totalSeconds % 60
  if totalSeconds < 3600 then
    padNat2 minutes ++ ":" ++ padNat2 seconds
  else
    padNat2 hours ++ ":" ++ padNat2 minutes ++ ":" ++ padNat2 seconds

/-- The spec's wording of `mergeAdjacent`: a left-to-right walk carrying a
set of already-flushed segments and a running accumulator; a segment merges
into the accumulator iff it has the accumulator's `slideNumber` and lies
within `thresholdMs` of the accumulator's (start) timestamp, otherwise it
flushes the accumulator and starts a new one; the final accumulator is
always flushed; empty input yields empty output.

`mergeStep` is one step of that walk: the pair carries the flushed output
so far and the running accumulator. -/
def mergeStep (thresholdMs : Int)
    (acc : List TranscriptSegment × TranscriptSegment) (next : TranscriptSegment) :
    List TranscriptSegment × TranscriptSegment :=
  match acc with
  | (flushed, cur) =>
    if next.slideNumber = cur.slideNumber ∧
        next.timestamp - cur.timestamp ≤ thresholdMs then
      (flushed, { cur with text := cur.text ++ " " ++ next.text })
    else
      (flushed ++ [cur], next)

/-- The spec's `mergeAdjacent`, assembled from `mergeStep`. -/
def mergeAdjacentSpec (segments : List TranscriptSegment) (thresholdMs : Int) :
    List TranscriptSegment :=
  match segments with
  | [] => []
  | s0 :: rest =>
    let out := rest.foldl (mergeStep thresholdMs) ([], s0)
    out.1 ++ [out.2]

/-! ### useSpeechToText.ts — the Recognition Session -/

/-- One recognition alternative in an `onresult` batch: the per-result
finality flag and `result[0].transcript`. -/
structure RecognitionResult where
  isFinal : Bool
  transcript : String
  deriving Repr, DecidableEq

/-- The Recognition Session state (the hook's `useState` values, the
`shouldRestartRef` / `isStoppingRef` refs, and an instrumentation counter
`startRequests` counting the `start()` calls issued to the underlying
recognizer). -/
structure RecognitionState where
  isListening : Bool
  transcript : String
  interim : String
  error : Option String
  shouldRestart : Bool
  isStopping : Bool
  startRequests : Nat
  deriving Repr, DecidableEq

/-- `getErrorMessage` from `useSpeechToText.ts`. -/
def getErrorMessage (error : String) : String :=
  if error = "no-speech" then "No speech detected. Please try again."
  else if error = "audio-capture" then "No microphone detected. Please check your microphone."
  else if error = "not-allowed" then "Microphone permission denied. Please allow microphone access."
  else if error = "network" then "Network error. Please check your connection."
  else "Speech recognition error: " ++ error

/-- The `onstart` handler. -/
def recOnStart (s : RecognitionState) : RecognitionState :=
  { s with isListening := true, error := none }

/-- The `onresult` handler: partitions the batch by the finality flag,
concatenating final fragments into `finalTranscript` and the rest into
`interim`, then branches on JS truthiness of `finalTranscript` (non-empty
string). Returns the new state together with the `onResult` callback
invocations `(text, isFinal)` the handler performs. -/
def recOnResult (results : List RecognitionResult) (s : RecognitionState) :
    RecognitionState × List (String × Bool) :=
  let finalTranscript :=
    results.foldl (fun acc r => if r.isFinal then acc ++ r.transcript else acc) ""
  let interim :=
    results.foldl (fun acc r => if r.isFinal then acc else acc ++ r.transcript) ""
  if finalTranscript ≠ "" then
    ({ s with transcript := s.transcript ++ finalTranscript, interim := "" },
      [(finalTranscript, true)])
  else
    ({ s with interim := interim }, [(interim, false)])

/-- The concatenation, in batch order, of the transcripts of the final
results of a batch (the spec's "new final text"). -/
def finalText (results : List RecognitionResult) : String :=
  String.join ((results.filter (fun r => r.isFinal)).map (fun r => r.transcript))

/-- The concatenation, in batch order, of the transcripts of the non-final
results of a batch (the spec's "new interim text"). -/
def interimTextOf (results : List RecognitionResult) : String :=
  String.join ((results.filter (fun r => !r.isFinal)).map (fun r => r.transcript))

/-- The `onerror` handler: records the classified message and forces
`shouldRestartRef.current = false`. -/
def recOnError (code : String) (s : RecognitionState) : RecognitionState :=
  { s with error := some (getErrorMessage code), shouldRestart := false }

/-- The `onend` handler: clears `isListening`, then re-requests `start()`
on the underlying recognizer exactly when `shouldRestartRef` is set and the
stop was not intentional (a throwing `start()` is swallowed; the request is
still issued). -/
def recOnEnd (s : RecognitionState) : RecognitionState :=
  let s' := { s with isListening := false }
  if s'.shouldRestart ∧ ¬s'.isStopping then
    { s' with startRequests := s'.startRequests + 1 }
  else s'

/-- The hook's `start()` in the supported case (recognition instance
present): clears the error, arms auto-restart, clears the intentional-stop
flag and requests `start()` on the recognizer (exceptions swallowed). -/
def recStart (s : RecognitionState) : RecognitionState :=
  { s with
    error := none,
    shouldRestart := true,
    isStopping := false,
    startRequests := s.startRequests + 1 }

/-- The hook's `stop()`: disarms auto-restart, marks the stop intentional,
and requests `stop()` on the recognizer. -/
def recStop (s : RecognitionState) : RecognitionState :=
  { s with shouldRestart := false, isStopping := true }

/-- The hook's `resetTranscript()`. -/
def recResetTranscript (s : RecognitionState) : RecognitionState :=
  { s with transcript := "", interim := "", error := none }

/-! ### useSlideTransitionTracker.ts — the Slide Transition Tracker -/

/-- `SlideTransition` from `useSlideTransitionTracker.ts`. -/
structure SlideTransition where
  slideIndex : Int
  timestamp : Int
  deriving Repr, DecidableEq

/-- The tracker's state: the `transitions` / `sessionStartTime` /
`isTracking` state values and the `previousSlideIndexRef` ref. -/
structure TrackerState where
  transitions : List SlideTransition
  sessionStartTime : Option Int
  isTracking : Bool
  previousSlideIndex : Option Int
  deriving Repr, DecidableEq

/-- `startTracking()` observed at slide `currentSlideIndex` and time `now`. -/
def startTracking (currentSlideIndex now : Int) (_s : TrackerState) : TrackerState :=
  { transitions := [SlideTransition.mk currentSlideIndex now],
    sessionStartTime := some now,
    isTracking := true,
    previousSlideIndex := some currentSlideIndex }

/-- `stopTracking()`. -/
def stopTracking (s : TrackerState) : TrackerState :=
  { s with isTracking := false }

/-- `reset()`. -/
def trackerReset (_s : TrackerState) : TrackerState :=
  { transitions := [], sessionStartTime := none, isTracking := false,
    previousSlideIndex := none }

/-- The transition-detection effect, run when the externally observed
current-slide index is `currentSlideIndex` at time `now`: returns early if
not tracking; otherwise appends a record iff the previously observed index
exists and differs, then updates the previously observed index. -/
def observeSlide (currentSlideIndex now : Int) (s : TrackerState) : TrackerState :=
  if ¬s.isTracking then s
  else
    let appended :=
      match s.previousSlideIndex with
      | some prev =>
        if prev ≠ currentSlideIndex then
          { s with transitions :=
              s.transitions ++ [SlideTransition.mk currentSlideIndex now] }
        else s
      | none => s
    { appended with previousSlideIndex := some currentSlideIndex }

/-! ### stores/session.ts — the session store (slides slice) -/

/-- `Slide` from `src/app/src/types`. -/
structure Slide where
  number : Int
  textContent : String
  visualDescription : String
  imageUrl : String
  deriving Repr, DecidableEq

/-- The zustand session store state (`pdfFile` modelled by its name). -/
structure SessionState where
  slides : List Slide
  currentSlideIndex : Int
  isLoading : Bool
  error : Option String
  pdfFile : Option String
  transcript : List TranscriptSegment
  isRecording : Bool
  deriving Repr, DecidableEq

/-- `createInitialState()` from `stores/session.ts`. -/
def createInitialState : SessionState :=
  { slides := [], currentSlideIndex := 0, isLoading := false, error := none,
    pdfFile := none, transcript := [], isRecording := false }

/-- `setSlides(slides)`. -/
def setSlides (slides : List Slide) (s : SessionState) : SessionState :=
  { s with slides := slides, currentSlideIndex := 0, error := none }

/-- `setCurrentSlide(index)`: clamps into `[0, slides.length - 1]`, storing
0 when there are no slides. -/
def setCurrentSlide (index : Int) (s : SessionState) : SessionState :=
  if s.slides.length = 0 then { s with currentSlideIndex := 0 }
  else
    { s with currentSlideIndex := max 0 (min index ((s.slides.length : Int) - 1)) }

/-- `nextSlide()`. -/
def nextSlide (s : SessionState) : SessionState :=
  if s.currentSlideIndex < (s.slides.length : Int) - 1 then
    { s with currentSlideIndex := s.currentSlideIndex + 1 }
  else s

/-- `previousSlide()`. -/
def previousSlide (s : SessionState) : SessionState :=
  if s.currentSlideIndex > 0 then
    { s with currentSlideIndex := s.currentSlideIndex - 1 }
  else s

/-- `resetSession()`. -/
def resetSession (_s : SessionState) : SessionState := createInitialState

/-- The session-store actions named by the bounds claim. -/
inductive SessionAction where
  | setSlides (slides : List Slide)
  | setCurrentSlide (index : Int)
  | nextSlide
  | previousSlide
  | resetSession
  deriving Repr, DecidableEq

/-- Interpreting one store action. -/
def applyAction (a : SessionAction) (s : SessionState) : SessionState :=
  match a with
  | .setSlides slides => setSlides slides s
  | .setCurrentSlide index => setCurrentSlide index s
  | .nextSlide => nextSlide s
  | .previousSlide => previousSlide s
  | .resetSession => resetSession s

/-- Running a sequence of store actions from a state. -/
def runActions (acts : List SessionAction) (s : SessionState) : SessionState :=
  acts.foldl (fun st a => applyAction a st) s

/-- The in-bounds invariant on the current-slide index. -/
def slideIndexInBounds (s : SessionState) : Prop :=
  if s.slides.isEmpty then s.currentSlideIndex = 0
  else 0 ≤ s.currentSlideIndex ∧ s.currentSlideIndex ≤ (s.slides.length : Int) - 1

instance (s : SessionState) : Decidable (slideIndexInBounds s) := by
  unfold slideIndexInBounds; infer_instance

/-! ## Helper lemmas -/

theorem join_cons (s : String) (l : List String) :
    String.join (s :: l) = s ++ String.join l := by
  apply String.ext
  simp [String.join_eq]

theorem foldl_final (l : List RecognitionResult) :
    ∀ a : String,
      l.foldl (fun acc r => if r.isFinal then acc ++ r.transcript else acc) a
        = a ++ finalText l := by
  induction l with
  | nil => intro a; simp [finalText, String.join]
  | cons x xs ih =>
    intro a
    by_cases h : x.isFinal <;>
      simp [List.foldl, h, ih, finalText, join_cons, String.append_assoc]

theorem foldl_interim (l : List RecognitionResult) :
    ∀ a : String,
      l.foldl (fun acc r => if r.isFinal then acc else acc ++ r.transcript) a
        = a ++ interimTextOf l := by
  induction l with
  | nil => intro a; simp [interimTextOf, String.join]
  | cons x xs ih =>
    intro a
    by_cases h : x.isFinal <;>
      simp [List.foldl, h, ih, interimTextOf, join_cons, String.append_assoc]

theorem padStart2_natCast (k : Nat) : padStart2 ((k : Nat) : Int) = padNat2 k := rfl

theorem fdiv_natCast (m n : Nat) :
    Int.fdiv (m : Int) (n : Int) = ((m / n : Nat) : Int) := by
  rw [Int.fdiv_eq_ediv _ (by omega)]
  norm_cast

theorem tmod_natCast (m n : Nat) :
    Int.tmod (m : Int) (n : Int) = ((m % n : Nat) : Int) := by
  rw [Int.tmod_eq_emod (by omega) (by omega)]
  norm_cast

theorem formatTimestamp_ofNat (m : Nat) :
    formatTimestamp (m : Int) 0 = formatRelativeSpec m := by
  simp only [formatTimestamp, formatRelativeSpec, sub_zero]
  rw [show (1000 : Int) = ((1000 : Nat) : Int) from rfl,
    show (3600 : Int) = ((3600 : Nat) : Int) from rfl,
    show (60 : Int) = ((60 : Nat) : Int) from rfl]
  rw [fdiv_natCast, fdiv_natCast, tmod_natCast, fdiv_natCast, tmod_natCast]
  by_cases hc : m / 1000 < 3600
  · have h0 : m / 1000 / 3600 = 0 := Nat.div_eq_of_lt hc
    rw [if_neg (by rw [h0]; omega), if_pos hc]
    rw [padStart2_natCast, padStart2_natCast]
  · have h0 : 0 < m / 1000 / 3600 := by
      have : 3600 ≤ m / 1000 := by omega
      exact Nat.div_pos this (by omega)
    rw [if_pos (by exact_mod_cast h0), if_neg hc]
    rw [padStart2_natCast, padStart2_natCast, padStart2_natCast]

theorem formatTimestamp_diff (t b : Int) :
    formatTimestamp t b = formatTimestamp (t - b) 0 := by
  simp only [formatTimestamp, sub_zero]

theorem foldl_mergeStep (thr : Int) (l : List TranscriptSegment) :
    ∀ (flushed : List TranscriptSegment) (cur : TranscriptSegment),
      (l.foldl (mergeStep thr) (flushed, cur)).1
          ++ [(l.foldl (mergeStep thr) (flushed, cur)).2]
        = flushed ++ mergeLoop thr cur l := by
  induction l with
  | nil => intro flushed cur; simp [mergeLoop]
  | cons next rest ih =>
    intro flushed cur
    rw [List.foldl_cons]
    by_cases h : next.slideNumber = cur.slideNumber ∧ next.timestamp - cur.timestamp ≤ thr
    · rw [mergeLoop, if_pos h,
        show mergeStep thr (flushed, cur) next
            = (flushed, { cur with text := cur.text ++ " " ++ next.text }) from by
          rw [mergeStep, if_pos h]]
      exact ih flushed _
    · rw [mergeLoop, if_neg h,
        show mergeStep thr (flushed, cur) next = (flushed ++ [cur], next) from by
          rw [mergeStep, if_neg h],
        ih (flushed ++ [cur]) next]
      simp [List.append_assoc]

theorem mergeLoop_head (thr : Int) (l : List TranscriptSegment) :
    ∀ cur, ∃ (c : TranscriptSegment) (l' : List TranscriptSegment),
      mergeLoop thr cur l = c :: l' ∧ c.timestamp = cur.timestamp ∧
        c.slideNumber = cur.slideNumber := by
  induction l with
  | nil => intro cur; exact ⟨cur, [], rfl, rfl, rfl⟩
  | cons next rest ih =>
    intro cur
    by_cases h : next.slideNumber = cur.slideNumber ∧ next.timestamp - cur.timestamp ≤ thr
    · obtain ⟨c, l', he, ht, hs⟩ :=
        ih { cur with text := cur.text ++ " " ++ next.text }
      exact ⟨c, l', by rw [mergeLoop, if_pos h]; exact he, ht, hs⟩
    · exact ⟨cur, mergeLoop thr next rest, by rw [mergeLoop, if_neg h], rfl, rfl⟩

theorem mergeLoop_chain (thr : Int) (l : List TranscriptSegment) :
    ∀ cur, List.Chain'
      (fun a b => ¬(b.slideNumber = a.slideNumber ∧ b.timestamp - a.timestamp ≤ thr))
      (mergeLoop thr cur l) := by
  induction l with
  | nil => intro cur; simp [mergeLoop]
  | cons next rest ih =>
    intro cur
    by_cases h : next.slideNumber = cur.slideNumber ∧ next.timestamp - cur.timestamp ≤ thr
    · simpa [mergeLoop, h] using ih { cur with text := cur.text ++ " " ++ next.text }
    · rw [mergeLoop, if_neg h]
      obtain ⟨c, l', he, ht, hs⟩ := mergeLoop_head thr rest next
      have hch := ih next
      rw [he] at hch ⊢
      rw [List.chain'_cons]
      refine ⟨?_, hch⟩
      rw [hs, ht]
      exact h

theorem chain_merge_id (thr : Int) (l : List TranscriptSegment) :
    ∀ cur, List.Chain'
        (fun a b => ¬(b.slideNumber = a.slideNumber ∧ b.timestamp - a.timestamp ≤ thr))
        (cur :: l) →
      mergeLoop thr cur l = cur :: l := by
  induction l with
  | nil => intro cur _; rfl
  | cons next rest ih =>
    intro cur hch
    rw [List.chain'_cons] at hch
    obtain ⟨hP, hch'⟩ := hch
    rw [mergeLoop, if_neg hP, ih next hch']

theorem mergeLoop_join (thr : Int) (l : List TranscriptSegment) :
    ∀ cur, joinTexts (mergeLoop thr cur l) = joinTexts (cur :: l) := by
  induction l with
  | nil => intro cur; rfl
  | cons next rest ih =>
    intro cur
    by_cases h : next.slideNumber = cur.slideNumber ∧ next.timestamp - cur.timestamp ≤ thr
    · rw [mergeLoop, if_pos h, ih { cur with text := cur.text ++ " " ++ next.text }]
      cases rest with
      | nil => rfl
      | cons r rs =>
        show (cur.text ++ " " ++ next.text) ++ " " ++ joinTexts (r :: rs)
          = cur.text ++ " " ++ (next.text ++ " " ++ joinTexts (r :: rs))
        simp [String.append_assoc]
    · rw [mergeLoop, if_neg h]
      obtain ⟨c, l', he, _, _⟩ := mergeLoop_head thr rest next
      rw [he]
      show cur.text ++ " " ++ joinTexts (c :: l') = joinTexts (cur :: next :: rest)
      rw [← he, ih next]
      rfl

theorem foldl_max_perm {l₁ l₂ : List Int} (h : l₁.Perm l₂) :
    ∀ a : Int, l₁.foldl max a = l₂.foldl max a := by
  induction h with
  | nil => intro a; rfl
  | cons x _ ih => intro a; simp only [List.foldl]; exact ih (max a x)
  | swap x y l =>
    intro a
    simp only [List.foldl]
    rw [max_assoc, max_comm y x, ← max_assoc]
  | trans _ _ ih1 ih2 => intro a; exact (ih1 a).trans (ih2 a)

theorem foldl_min_perm {l₁ l₂ : List Int} (h : l₁.Perm l₂) :
    ∀ a : Int, l₁.foldl min a = l₂.foldl min a := by
  induction h with
  | nil => intro a; rfl
  | cons x _ ih => intro a; simp only [List.foldl]; exact ih (min a x)
  | swap x y l =>
    intro a
    simp only [List.foldl]
    rw [min_assoc, min_comm y x, ← min_assoc]
  | trans _ _ ih1 ih2 => intro a; exact (ih1 a).trans (ih2 a)

theorem max?_perm {l₁ l₂ : List Int} (h : l₁.Perm l₂) : l₁.max? = l₂.max? := by
  induction h with
  | nil => rfl
  | cons x h' ih =>
    simp only [List.max?]
    rw [foldl_max_perm h' x]
  | swap x y l =>
    simp only [List.max?, List.foldl]
    rw [max_comm y x]
  | trans _ _ ih1 ih2 => exact ih1.trans ih2

theorem min?_perm {l₁ l₂ : List Int} (h : l₁.Perm l₂) : l₁.min? = l₂.min? := by
  induction h with
  | nil => rfl
  | cons x h' ih =>
    simp only [List.min?]
    rw [foldl_min_perm h' x]
  | swap x y l =>
    simp only [List.min?, List.foldl]
    rw [min_comm y x]
  | trans _ _ ih1 ih2 => exact ih1.trans ih2

theorem duration_eq (l : List TranscriptSegment) :
    calculateSpeakingDuration l =
      if l.length ≤ 1 then 0
      else ((l.map (·.timestamp)).max?.getD 0) - ((l.map (·.timestamp)).min?.getD 0) := by
  match l with
  | [] => rfl
  | [_] => rfl
  | s :: t :: rest =>
    simp [calculateSpeakingDuration, List.max?, List.min?]

theorem slideIndexInBounds_initial : slideIndexInBounds createInitialState := by
  simp [slideIndexInBounds, createInitialState]

theorem slideIndexInBounds_apply (a : SessionAction) (s : SessionState)
    (h : slideIndexInBounds s) : slideIndexInBounds (applyAction a s) := by
  cases a with
  | setSlides slides =>
    by_cases he : slides.isEmpty <;>
      simp [applyAction, setSlides, slideIndexInBounds, he]
    have : slides ≠ [] := by simpa [List.isEmpty_iff] using he
    have hlen : 0 < slides.length := List.length_pos.mpr this
    omega
  | setCurrentSlide index =>
    by_cases hz : s.slides.length = 0
    · simp [applyAction, setCurrentSlide, hz, slideIndexInBounds, List.isEmpty_iff,
        List.eq_nil_of_length_eq_zero hz]
    · have hlen : 0 < s.slides.length := Nat.pos_of_ne_zero hz
      have hne : s.slides ≠ [] := by
        intro hnil; rw [hnil] at hlen; simp at hlen
      simp only [applyAction, setCurrentSlide, hz, if_neg, ite_false, slideIndexInBounds,
        List.isEmpty_iff]
      simp only [hne, ite_false]
      constructor <;> omega
  | nextSlide =>
    unfold slideIndexInBounds at h ⊢
    by_cases he : s.slides.isEmpty
    · have hz : s.slides.length = 0 := by
        simpa [List.isEmpty_iff, List.length_eq_zero] using he
      simp [he] at h
      simp [applyAction, nextSlide, he, h, hz]
    · have hne : s.slides ≠ [] := by simpa [List.isEmpty_iff] using he
      have hlen : 0 < s.slides.length := List.length_pos.mpr hne
      simp [he] at h
      by_cases hc : s.currentSlideIndex < (s.slides.length : Int) - 1 <;>
        simp [applyAction, nextSlide, hc, he] <;> omega
  | previousSlide =>
    unfold slideIndexInBounds at h ⊢
    by_cases he : s.slides.isEmpty
    · simp [he] at h
      simp [applyAction, previousSlide, he, h]
    · simp [he] at h
      by_cases hc : s.currentSlideIndex > 0 <;>
        simp [applyAction, previousSlide, hc, he] <;> omega
  | resetSession =>
    exact slideIndexInBounds_initial

theorem runActions_preserves (acts : List SessionAction) :
    ∀ s, slideIndexInBounds s → slideIndexInBounds (runActions acts s) := by
  induction acts with
  | nil => intro s h; exact h
  | cons a rest ih =>
    intro s h
    exact ih (applyAction a s) (slideIndexInBounds_apply a s h)

/-! ## Claim theorems -/

/-- C1: whenever `onend` fires while `shouldAutoRestart` is armed and the
stop was not intentional, the engine requests `start()` on the underlying
recognizer exactly once; and after any classified error is delivered,
`shouldAutoRestart` is forced false, so a subsequent `onend` requests no
restart. -/
theorem recognition_onend_autorestart :
    (∀ s : RecognitionState, s.shouldRestart = true → s.isStopping = false →
      (recOnEnd s).startRequests = s.startRequests + 1) ∧
    (∀ (code : String) (s : RecognitionState),
      (recOnError code s).shouldRestart = false ∧
      (recOnEnd (recOnError code s)).startRequests = (recOnError code s).startRequests) := by
  constructor
  · intro s h1 h2
    simp [recOnEnd, h1, h2]
  · intro code s
    refine ⟨rfl, ?_⟩
    simp [recOnEnd, recOnError]

/-- Witness for C1 at a concrete armed state and a concrete error code. -/
theorem recognition_onend_autorestart_witness :
    (recOnEnd (RecognitionState.mk true "t" "" none true false 3)).startRequests = 3 + 1 ∧
    (recOnError "network" (RecognitionState.mk true "t" "" none true false 3)).shouldRestart
      = false ∧
    (recOnEnd (recOnError "network"
        (RecognitionState.mk true "t" "" none true false 3))).startRequests
      = (recOnError "network" (RecognitionState.mk true "t" "" none true false 3)).startRequests :=
  ⟨recognition_onend_autorestart.1 _ rfl rfl,
    (recognition_onend_autorestart.2 "network" _).1,
    (recognition_onend_autorestart.2 "network" _).2⟩

/-- C2 counterexample: on a batch with neither final nor interim text
(here: the empty batch) delivered in a state with pending interim text
`"hello"`, the handler is not a no-op — it overwrites the interim text with
`""` and still invokes the caller's callback with `("", isFinal=false)`. -/
theorem onresult_empty_batch_not_noop :
    (recOnResult [] (RecognitionState.mk true "" "hello" none true false 1)).2
        = [("", false)] ∧
    (recOnResult [] (RecognitionState.mk true "" "hello" none true false 1)).1.interim = "" ∧
    (recOnResult [] (RecognitionState.mk true "" "hello" none true false 1)).1
        ≠ RecognitionState.mk true "" "hello" none true false 1 := by
  refine ⟨rfl, rfl, ?_⟩
  decide

/-- C2 (amended): if the batch's concatenated final text is non-empty, it is
appended to the accumulated transcript, the interim text is cleared, and
the callback fires with `(finalText, true)`; otherwise — even when the
batch carries no text at all — the interim text is replaced wholesale by
the batch's concatenated interim text and the callback fires with
`(interimText, false)`. -/
theorem onresult_delivery (results : List RecognitionResult) (s : RecognitionState) :
    (finalText results ≠ "" →
      recOnResult results s =
        ({ s with transcript := s.transcript ++ finalText results, interim := "" },
          [(finalText results, true)])) ∧
    (finalText results = "" →
      recOnResult results s =
        ({ s with interim := interimTextOf results },
          [(interimTextOf results, false)])) := by
  have hf := foldl_final results ""
  have hi := foldl_interim results ""
  rw [String.empty_append] at hf hi
  constructor
  · intro h
    simp [recOnResult, hf, hi, h]
  · intro h
    simp [recOnResult, hf, hi, h]

/-- Witness for C2 at a concrete final batch and a concrete empty batch. -/
theorem onresult_delivery_witness :
    (recOnResult [RecognitionResult.mk true "Hello"]
        (RecognitionState.mk true "" "wip" none true false 0) =
      ({ RecognitionState.mk true "" "wip" none true false 0 with
          transcript := "" ++ finalText [RecognitionResult.mk true "Hello"],
          interim := "" },
        [(finalText [RecognitionResult.mk true "Hello"], true)])) ∧
    (recOnResult [] (RecognitionState.mk true "" "wip" none true false 0) =
      ({ RecognitionState.mk true "" "wip" none true false 0 with
          interim := interimTextOf ([] : List RecognitionResult) },
        [(interimTextOf ([] : List RecognitionResult), false)])) :=
  ⟨(onresult_delivery [RecognitionResult.mk true "Hello"]
      (RecognitionState.mk true "" "wip" none true false 0)).1 (by decide),
    (onresult_delivery [] (RecognitionState.mk true "" "wip" none true false 0)).2 rfl⟩

/-- C7: while armed, observing a slide index different from the previously
observed one appends exactly one transition record (with the new index and
the current time); re-observing the unchanged index appends nothing; while
disarmed, observation leaves the state untouched. -/
theorem tracker_transition_detection (i now : Int) (s : TrackerState) :
    (∀ p : Int, s.isTracking = true → s.previousSlideIndex = some p → p ≠ i →
      (observeSlide i now s).transitions
        = s.transitions ++ [SlideTransition.mk i now]) ∧
    (s.isTracking = true → s.previousSlideIndex = some i →
      (observeSlide i now s).transitions = s.transitions) ∧
    (s.isTracking = false → observeSlide i now s = s) := by
  refine ⟨?_, ?_, ?_⟩
  · intro p ht hp hne
    simp [observeSlide, ht, hp, hne]
  · intro ht hp
    simp [observeSlide, ht, hp]
  · intro ht
    simp [observeSlide, ht]

/-- Witness for C7: a change appends one record, a steady index appends
none, a disarmed tracker ignores changes. -/
theorem tracker_transition_detection_witness :
    (observeSlide 1 200 (TrackerState.mk [SlideTransition.mk 0 100] (some 100) true
        (some 0))).transitions
      = [SlideTransition.mk 0 100] ++ [SlideTransition.mk 1 200] ∧
    (observeSlide 0 200 (TrackerState.mk [SlideTransition.mk 0 100] (some 100) true
        (some 0))).transitions
      = [SlideTransition.mk 0 100] ∧
    observeSlide 1 200 (TrackerState.mk [] none false none)
      = TrackerState.mk [] none false none :=
  ⟨(tracker_transition_detection 1 200 _).1 0 rfl rfl (by decide),
    (tracker_transition_detection 0 200 _).2.1 rfl rfl,
    (tracker_transition_detection 1 200 _).2.2 rfl⟩

/-- C8: `resetTranscript()` clears the accumulated transcript, the interim
text and the last error, and leaves the listening flag, the auto-restart
flag, the intentional-stop flag and the recognizer start-request count
unchanged. -/
theorem resetTranscript_frame (s : RecognitionState) :
    (recResetTranscript s).transcript = "" ∧
    (recResetTranscript s).interim = "" ∧
    (recResetTranscript s).error = none ∧
    (recResetTranscript s).isListening = s.isListening ∧
    (recResetTranscript s).shouldRestart = s.shouldRestart ∧
    (recResetTranscript s).isStopping = s.isStopping ∧
    (recResetTranscript s).startRequests = s.startRequests :=
  ⟨rfl, rfl, rfl, rfl, rfl, rfl, rfl⟩

/-- C10: after any sequence of the store actions `setSlides`,
`setCurrentSlide`, `nextSlide`, `previousSlide`, `resetSession` run from
the initial state, the current-slide index is 0 when there are no slides
and lies in `[0, slides.length - 1]` otherwise. -/
theorem store_slide_index_in_bounds (acts : List SessionAction) :
    ((runActions acts createInitialState).slides = [] →
      (runActions acts createInitialState).currentSlideIndex = 0) ∧
    ((runActions acts createInitialState).slides ≠ [] →
      0 ≤ (runActions acts createInitialState).currentSlideIndex ∧
      (runActions acts createInitialState).currentSlideIndex
        ≤ ((runActions acts createInitialState).slides.length : Int) - 1) := by
  have h := runActions_preserves acts createInitialState slideIndexInBounds_initial
  unfold slideIndexInBounds at h
  constructor
  · intro he
    simpa [List.isEmpty_iff, he] using h
  · intro hne
    simpa [List.isEmpty_iff, hne] using h

/-- Witness for C10: the empty action sequence leaves the index at 0, and a
two-slide deck followed by `setCurrentSlide 100` stays within bounds. -/
theorem store_slide_index_in_bounds_witness :
    (runActions [] createInitialState).currentSlideIndex = 0 ∧
    (0 ≤ (runActions
        [SessionAction.setSlides [Slide.mk 1 "a" "" "", Slide.mk 2 "b" "" ""],
          SessionAction.setCurrentSlide 100] createInitialState).currentSlideIndex ∧
      (runActions
        [SessionAction.setSlides [Slide.mk 1 "a" "" "", Slide.mk 2 "b" "" ""],
          SessionAction.setCurrentSlide 100] createInitialState).currentSlideIndex
        ≤ ((runActions
        [SessionAction.setSlides [Slide.mk 1 "a" "" "", Slide.mk 2 "b" "" ""],
          SessionAction.setCurrentSlide 100] createInitialState).slides.length : Int) - 1) :=
  ⟨(store_slide_index_in_bounds []).1 rfl,
    (store_slide_index_in_bounds
      [SessionAction.setSlides [Slide.mk 1 "a" "" "", Slide.mk 2 "b" "" ""],
        SessionAction.setCurrentSlide 100]).2 (by decide)⟩

/-- C3 counterexample: a negative elapsed time is not clamped to `"00:00"` —
at one second before the base time, the code renders the negative field
values, producing `"-1:-1"`. -/
theorem formatTimestamp_negative_not_clamped :
    ((-1000 : Int) - 0 < 0) ∧
    formatTimestamp (-1000) 0 = "-1:-1" ∧
    formatTimestamp (-1000) 0 ≠ "00:00" :=
  ⟨by decide, by decide, by decide⟩

/-- C3 (amended): for every non-negative elapsed time, `formatTimestamp`
renders the spec format — zero-padded `mm:ss` when the elapsed whole
seconds span under one hour and zero-padded `hh:mm:ss` otherwise — and in
particular `formatTimestamp(b, b) = "00:00"`,
`formatTimestamp(b+65000, b) = "01:05"` and
`formatTimestamp(b+3661000, b) = "01:01:01"`; a negative elapsed time,
however, is rendered with negative fields rather than clamped to
`"00:00"`. -/
theorem formatTimestamp_spec_format :
    (∀ t b : Int, b ≤ t → formatTimestamp t b = formatRelativeSpec (t - b).toNat) ∧
    (∀ b : Int, formatTimestamp b b = "00:00" ∧
      formatTimestamp (b + 65000) b = "01:05" ∧
      formatTimestamp (b + 3661000) b = "01:01:01") := by
  refine ⟨?_, ?_⟩
  · intro t b h
    rw [formatTimestamp_diff,
      show t - b = (((t - b).toNat : Nat) : Int) from (Int.toNat_of_nonneg (by omega)).symm,
      formatTimestamp_ofNat, Int.toNat_natCast]
  · intro b
    refine ⟨?_, ?_, ?_⟩
    · rw [formatTimestamp_diff, show b - b = ((0 : Nat) : Int) from by omega,
        formatTimestamp_ofNat]
      rfl
    · rw [formatTimestamp_diff, show b + 65000 - b = ((65000 : Nat) : Int) from by omega,
        formatTimestamp_ofNat]
      rfl
    · rw [formatTimestamp_diff,
        show b + 3661000 - b = ((3661000 : Nat) : Int) from by omega,
        formatTimestamp_ofNat]
      rfl

/-- Witness for C3 at a concrete non-negative elapsed time and base 0. -/
theorem formatTimestamp_spec_format_witness :
    formatTimestamp 65000 0 = formatRelativeSpec ((65000 : Int) - 0).toNat ∧
    formatTimestamp 0 0 = "00:00" :=
  ⟨formatTimestamp_spec_format.1 65000 0 (by decide),
    (formatTimestamp_spec_format.2 0).1⟩

/-- C4: `mergeConsecutiveSegments` implements the spec's accumulator walk —
a segment merges into the running accumulator iff its slide number matches
and it lies within the threshold of the accumulator's original (start)
timestamp, merging joins texts with a single space and keeps the start
timestamp, a non-matching segment flushes the accumulator, the final
accumulator is always flushed, and empty input yields empty output; in
particular the `Hello`/`world` example merges to a single segment keeping
timestamp 1000. -/
theorem mergeConsecutiveSegments_spec :
    (∀ (S : List TranscriptSegment) (t : Int),
      mergeConsecutiveSegments S t = mergeAdjacentSpec S t) ∧
    mergeConsecutiveSegments
        [TranscriptSegment.mk "Hello" 1000 1, TranscriptSegment.mk "world" 2000 1] 3000
      = [TranscriptSegment.mk "Hello world" 1000 1] := by
  constructor
  · intro S t
    cases S with
    | nil => rfl
    | cons s rest =>
      show mergeLoop t s rest = (rest.foldl (mergeStep t) ([], s)).1
          ++ [(rest.foldl (mergeStep t) ([], s)).2]
      rw [foldl_mergeStep t rest [] s]
      rfl
  · rfl

/-- C5: re-running `mergeConsecutiveSegments` on its own output with the
same threshold changes nothing. -/
theorem mergeConsecutiveSegments_idempotent (S : List TranscriptSegment) (t : Int) :
    mergeConsecutiveSegments (mergeConsecutiveSegments S t) t
      = mergeConsecutiveSegments S t := by
  cases S with
  | nil => rfl
  | cons s rest =>
    show mergeConsecutiveSegments (mergeLoop t s rest) t = mergeLoop t s rest
    obtain ⟨c, l', he, _, _⟩ := mergeLoop_head t rest s
    have hch := mergeLoop_chain t rest s
    rw [he] at hch ⊢
    show mergeLoop t c l' = c :: l'
    exact chain_merge_id t l' c hch

/-- C6: `calculateSpeakingDuration` is 0 on 0 or 1 segments, is the maximum
minus the minimum timestamp over the whole input on 2 or more, and is
therefore invariant under every permutation of its input; the 5000/1000/10000
example yields 9000. -/
theorem speakingDuration_order_invariant :
    (∀ l : List TranscriptSegment, l.length ≤ 1 → calculateSpeakingDuration l = 0) ∧
    (∀ l : List TranscriptSegment, 2 ≤ l.length →
      calculateSpeakingDuration l
        = ((l.map (·.timestamp)).max?.getD 0) - ((l.map (·.timestamp)).min?.getD 0)) ∧
    (∀ l₁ l₂ : List TranscriptSegment, l₁.Perm l₂ →
      calculateSpeakingDuration l₁ = calculateSpeakingDuration l₂) ∧
    calculateSpeakingDuration
        [TranscriptSegment.mk "" 5000 1, TranscriptSegment.mk "" 1000 1,
          TranscriptSegment.mk "" 10000 1] = 9000 := by
  refine ⟨?_, ?_, ?_, by rfl⟩
  · intro l h
    rw [duration_eq, if_pos h]
  · intro l h
    rw [duration_eq, if_neg (by omega)]
  · intro l₁ l₂ h
    rw [duration_eq, duration_eq, h.length_eq, max?_perm (h.map (·.timestamp)),
      min?_perm (h.map (·.timestamp))]

/-- Witness for C6 at concrete inputs: a singleton, a two-element list and a
concrete shuffle. -/
theorem speakingDuration_order_invariant_witness :
    calculateSpeakingDuration [TranscriptSegment.mk "x" 42 1] = 0 ∧
    calculateSpeakingDuration
        [TranscriptSegment.mk "a" 5000 1, TranscriptSegment.mk "b" 1000 2]
      = (([TranscriptSegment.mk "a" 5000 1, TranscriptSegment.mk "b" 1000 2].map
          (·.timestamp)).max?.getD 0)
        - (([TranscriptSegment.mk "a" 5000 1, TranscriptSegment.mk "b" 1000 2].map
          (·.timestamp)).min?.getD 0) ∧
    calculateSpeakingDuration
        [TranscriptSegment.mk "" 5000 1, TranscriptSegment.mk "" 1000 1,
          TranscriptSegment.mk "" 10000 1]
      = calculateSpeakingDuration
        [TranscriptSegment.mk "" 1000 1, TranscriptSegment.mk "" 10000 1,
          TranscriptSegment.mk "" 5000 1] :=
  ⟨speakingDuration_order_invariant.1 _ (by decide),
    speakingDuration_order_invariant.2.1 _ (by decide),
    speakingDuration_order_invariant.2.2.1 _ _ (by decide)⟩

/-- C9: merging loses no spoken text — joining the output's texts in order
with a single space equals joining the input's texts in order with a single
space, for every input and threshold. -/
theorem mergeConsecutiveSegments_preserves_text (S : List TranscriptSegment) (t : Int) :
    joinTexts (mergeConsecutiveSegments S t) = joinTexts S := by
  cases S with
  | nil => rfl
  | cons s rest => exact mergeLoop_join t rest s

end ToughCrowd
